import Mathlib

/-!
Verification development for the obsidian-publish repository: a shallow
embedding of its presentational components (Footer, Body, PageTitle) and of
its Quartz configuration file, with theorems checking the design claims.
-/

namespace ObsidianPublish

/-- Markup nodes produced by the JSX templates: a text node, or an element
with a tag, an attribute list and a child list. -/
inductive VNode where
  | text : String → VNode
  | elem : String → List (String × String) → List VNode → VNode

/-- The per-file metadata handed to a component; only the slug is read by
the components in this repository. -/
structure FileData where
  slug : Option String
deriving DecidableEq, Repr

/-- The slice of the global configuration the components read. -/
structure Cfg where
  pageTitle : Option String
  locale : String
deriving DecidableEq, Repr

/-- The props record the framework passes to a component render function. -/
structure QuartzComponentProps where
  fileData : FileData
  cfg : Cfg
  displayClass : Option String
  children : List VNode

/-- Translation strings returned by the framework i18n helper; only the two
fields the components read are kept. -/
structure Translations where
  propertyDefaultsTitle : String
  footerCreatedWith : String

/-- The external framework helpers imported by the components (pathToRoot
from quartz/util/path and i18n from quartz/i18n). They are framework code
outside this repository, so they are kept abstract: every theorem holds for
every choice of them. The slug is passed as an Option because the source
applies only a TypeScript non-null assertion, which does nothing at
runtime. -/
structure Framework where
  pathToRoot : Option String → String
  i18n : String → Translations

/-- Modelled from the spec: classNames from quartz/util/lang, which is not
among the sources; the spec describes the components as having no branching
logic beyond trivial null-coalescing, so the helper joins the given class
with the optional display class when present. -/
def classNames (displayClass : Option String) (cls : String) : String :=
  match displayClass with
  | some d => cls ++ " " ++ d
  | none => cls

/-- An attribute that JSX omits when its value is undefined. -/
def optAttr (name : String) : Option String → List (String × String)
  | some v => [(name, v)]
  | none => []

/-- The giscus comment-widget script element embedded verbatim by Footer
and Body; the two embeddings differ only in the data-theme value. -/
def giscusScript (theme : String) : VNode :=
  .elem "script"
    [ ("src", "https://giscus.app/client.js"),
      ("data-repo", "thanhtschoepe/obsidian-publish"),
      ("data-repo-id", "R_kgDOND35Vg"),
      ("data-category", "Announcements"),
      ("data-category-id", "DIC_kwDOND35Vs4Cj1S_"),
      ("data-mapping", "pathname"),
      ("data-strict", "0"),
      ("data-reactions-enabled", "1"),
      ("data-emit-metadata", "0"),
      ("data-input-position", "top"),
      ("data-theme", theme),
      ("data-lang", "en"),
      ("data-loading", "lazy"),
      ("crossorigin", "anonymous"),
      ("async", "") ] []

/-- The options record of the Footer constructor: a map from link text to
link target, modelled as an association list in enumeration order. -/
structure FooterOptions where
  links : List (String × String)
deriving DecidableEq, Repr

/-- The Footer render function from quartz/components/Footer.tsx. The
source reads the current year from the clock (new Date().getFullYear()),
so the ambient clock year is an explicit argument here. The links default
is the empty collection (the source defaults to an empty array). -/
def renderFooter (fw : Framework) (opts : Option FooterOptions) (year : Nat)
    (p : QuartzComponentProps) : List VNode :=
  let links : List (String × String) :=
    match opts with
    | some o => o.links
    | none => []
  [ giscusScript "preferred_color_scheme",
    .elem "footer" [("class", p.displayClass.getD "")]
      [ .elem "p" []
          [ .text (fw.i18n p.cfg.locale).footerCreatedWith,
            .text " ❤️ & ☕️ ",
            .text (toString year) ],
        .elem "ul" []
          (links.map fun e => .elem "li" [] [ .elem "a" [("href", e.2)] [ .text e.1 ] ]) ] ]

/-- The Body render function from the second module of
quartz/components/Footer.tsx: a quartz-body wrapper around the children,
followed by the giscus script with the dark_tritanopia theme. -/
def renderBody (p : QuartzComponentProps) : List VNode :=
  [ .elem "div" [("id", "quartz-body")] p.children,
    giscusScript "dark_tritanopia" ]

/-- The decorative blob markup shared by both PageTitle versions. -/
def blobContainer : VNode :=
  .elem "div" [("class", "blob-container")]
    [ .elem "div" [("class", "blob-cont")]
        [ .elem "div" [("class", "yellow blob")] [],
          .elem "div" [("class", "red blob")] [],
          .elem "div" [("class", "green blob")] [] ] ]

/-- The PageTitle render function from quartz/components/PageTitle.tsx:
the title is cfg.pageTitle when defined, otherwise the default translation
string; the anchor targets pathToRoot of the slug and carries the display
class when present. -/
def renderPageTitle (fw : Framework) (p : QuartzComponentProps) : VNode :=
  let title : String :=
    match p.cfg.pageTitle with
    | some t => t
    | none => (fw.i18n p.cfg.locale).propertyDefaultsTitle
  let baseDir := fw.pathToRoot p.fileData.slug
  .elem "h2" [("class", classNames p.displayClass "page-title")]
    [ blobContainer,
      .elem "div" [("class", "title-logo")]
        [ .elem "img" [("src", "static/meowbark.webp"), ("alt", "")] [],
          .elem "a" (("href", baseDir) :: optAttr "class" p.displayClass) [ .text title ] ] ]

/-- The alternative PageTitle render function from src/unnamed/part_001:
same title and anchor target, but the image and anchor sit directly under
the h2, the image has an explicit width, and the anchor has no class. -/
def renderPageTitleAlt (fw : Framework) (p : QuartzComponentProps) : VNode :=
  let title : String :=
    match p.cfg.pageTitle with
    | some t => t
    | none => (fw.i18n p.cfg.locale).propertyDefaultsTitle
  let baseDir := fw.pathToRoot p.fileData.slug
  .elem "h2" [("class", classNames p.displayClass "page-title")]
    [ blobContainer,
      .elem "img" [("src", "static/meowbark.webp"), ("alt", ""), ("width", "150")] [],
      .elem "a" [("href", baseDir)] [ .text title ] ]

/-- A component as the framework sees it: a render function plus optional
style and script attachments. The render takes the abstract framework
helpers and the ambient clock year, since the Footer source reads the
clock. -/
structure QuartzComponent where
  render : Framework → Nat → QuartzComponentProps → List VNode
  css : Option String
  afterDOMLoaded : Option String

/-- Modelled from the spec: the stylesheet quartz/components/styles/footer.scss,
imported by the Footer component but not among the sources; the spec
describes the components as returning markup fragments with associated
style strings, so it is a non-empty declarative style string. -/
def footerStyle : String := "footer \x7b text-align: left; \x7d"

/-- Modelled from the spec: the stylesheet quartz/components/styles/clipboard.scss,
imported by the Body component but not among the sources; a non-empty
declarative style string as the spec describes. -/
def clipboardStyle : String := ".clipboard-button \x7b position: absolute; \x7d"

/-- Modelled from the spec: the script quartz/components/scripts/clipboard.inline,
imported by the Body component but not among the sources; the afterDOMLoaded
script attachment the spec mentions. -/
def clipboardScript : String := "document.addEventListener(\x22nav\x22, addCopyButtons)"

/-- The inline css string attached to PageTitle in
quartz/components/PageTitle.tsx. -/
def pageTitleCss : String :=
  "\n.page-title \x7b\n  font-size: 1.75rem;\n  margin: 0;\n\x7d\n.title-logo \x7b\n  display: flex;\n  align-items: center;\n  gap: 1rem;\n\x7d\n"

/-- The inline css string attached to the alternative PageTitle in
src/unnamed/part_001. -/
def pageTitleAltCss : String :=
  "\n.page-title \x7b\n  font-size: 1.75rem;\n  margin: 0;\n\x7d\n"

/-- The Footer component constructor: default export of
quartz/components/Footer.tsx. -/
def FooterConstructor (opts : Option FooterOptions) : QuartzComponent :=
  { render := fun fw year p => renderFooter fw opts year p,
    css := some footerStyle,
    afterDOMLoaded := none }

/-- The Body component constructor: default export of the second module of
quartz/components/Footer.tsx. -/
def BodyConstructor : QuartzComponent :=
  { render := fun _ _ p => renderBody p,
    css := some clipboardStyle,
    afterDOMLoaded := some clipboardScript }

/-- The PageTitle component constructor: default export of
quartz/components/PageTitle.tsx. -/
def PageTitleConstructor : QuartzComponent :=
  { render := fun fw _ p => [renderPageTitle fw p],
    css := some pageTitleCss,
    afterDOMLoaded := none }

/-- The alternative PageTitle component constructor: default export of
src/unnamed/part_001. -/
def PageTitleAltConstructor : QuartzComponent :=
  { render := fun fw _ p => [renderPageTitleAlt fw p],
    css := some pageTitleAltCss,
    afterDOMLoaded := none }

/-- A JSON-like value for the option records passed to the framework
plugins in quartz.config.ts. -/
inductive JValue where
  | str : String → JValue
  | bool : Bool → JValue
  | num : Int → JValue
  | arr : List JValue → JValue
  | obj : List (String × JValue) → JValue

/-- The transformer plugin calls of quartz.config.ts, in order, each with
its option record. -/
def transformers : List (String × JValue) :=
  [ ("FrontMatter", .obj []),
    ("CreatedModifiedDate", .obj [("priority", .arr [.str "frontmatter", .str "filesystem"])]),
    ("SyntaxHighlighting", .obj
      [ ("theme", .obj [("light", .str "github-light"), ("dark", .str "github-dark")]),
        ("keepBackground", .bool false) ]),
    ("ObsidianFlavoredMarkdown", .obj [("enableInHtmlEmbed", .bool false)]),
    ("GitHubFlavoredMarkdown", .obj []),
    ("TableOfContents", .obj []),
    ("CrawlLinks", .obj [("markdownLinkResolution", .str "shortest")]),
    ("Description", .obj []),
    ("Latex", .obj [("renderEngine", .str "katex")]) ]

/-- The filter plugin calls of quartz.config.ts. -/
def filters : List (String × JValue) :=
  [ ("RemoveDrafts", .obj []) ]

/-- The emitter plugin calls of quartz.config.ts, in order. -/
def emitters : List (String × JValue) :=
  [ ("AliasRedirects", .obj []),
    ("ComponentResources", .obj []),
    ("ContentPage", .obj []),
    ("FolderPage", .obj []),
    ("TagPage", .obj []),
    ("ContentIndex", .obj [("enableSiteMap", .bool true), ("enableRSS", .bool true)]),
    ("Assets", .obj []),
    ("Static", .obj []),
    ("NotFoundPage", .obj []) ]

/-- A color scheme of the theme: the nine color tokens. -/
structure ColorScheme where
  light : String
  lightgray : String
  gray : String
  darkgray : String
  dark : String
  secondary : String
  tertiary : String
  highlight : String
  textHighlight : String
deriving DecidableEq, Repr

/-- The typography block of the theme. -/
structure Typography where
  header : String
  body : String
  code : String
deriving DecidableEq, Repr

/-- The theme block of the configuration. -/
structure Theme where
  fontOrigin : String
  cdnCaching : Bool
  typography : Typography
  lightMode : ColorScheme
  darkMode : ColorScheme
deriving DecidableEq, Repr

/-- The analytics block of the configuration. -/
structure Analytics where
  provider : String
deriving DecidableEq, Repr

/-- The configuration block of quartz.config.ts (the GlobalConfiguration
record of the framework schema). -/
structure GlobalConfiguration where
  pageTitle : String
  pageTitleSuffix : String
  enableSPA : Bool
  enablePopovers : Bool
  analytics : Analytics
  locale : String
  baseUrl : String
  ignorePatterns : List String
  defaultDateType : String
  theme : Theme
deriving DecidableEq, Repr

/-- The plugin lists of quartz.config.ts. -/
structure Plugins where
  transformerCalls : List (String × JValue)
  filterCalls : List (String × JValue)
  emitterCalls : List (String × JValue)

/-- The whole QuartzConfig record. -/
structure QuartzConfig where
  configurationBlock : GlobalConfiguration
  plugins : Plugins

/-- The configuration block value of quartz.config.ts. -/
def globalConfiguration : GlobalConfiguration :=
  { pageTitle := "meowbark.dev",
    pageTitleSuffix := "",
    enableSPA := true,
    enablePopovers := true,
    analytics := { provider := "plausible" },
    locale := "en-US",
    baseUrl := "www.meowbark.dev",
    ignorePatterns := ["private", "templates", ".obsidian"],
    defaultDateType := "created",
    theme :=
      { fontOrigin := "googleFonts",
        cdnCaching := true,
        typography :=
          { header := "Pixelify Sans",
            body := "JetBrains Mono",
            code := "JetBrains Mono" },
        lightMode :=
          { light := "#F3FCF0",
            lightgray := "#e5e5e5",
            gray := "#F5F8DE",
            darkgray := "#4e4e4e",
            dark := "#2b2b2b",
            secondary := "#a478f1",
            tertiary := "#f24389",
            highlight := "rgba(143, 159, 169, 0.15)",
            textHighlight := "#f4e784" },
        darkMode :=
          { light := "#181818",
            lightgray := "#393639",
            gray := "#646464",
            darkgray := "#d4d4d4",
            dark := "#ebebec",
            secondary := "#bb77ed",
            tertiary := "#1cdce8",
            highlight := "rgba(143, 159, 169, 0.15)",
            textHighlight := "#f34a62" } } }

/-- The default export of quartz.config.ts. -/
def quartzConfig : QuartzConfig :=
  { configurationBlock := globalConfiguration,
    plugins :=
      { transformerCalls := transformers,
        filterCalls := filters,
        emitterCalls := emitters } }

/-! ### Extraction helpers over markup trees -/

mutual

/-- The first element with the given tag, in document order. -/
def findElem (tag : String) : VNode → Option VNode
  | .text _ => none
  | .elem t a c => if t = tag then some (.elem t a c) else findElemList tag c

/-- The first element with the given tag in a list of nodes. -/
def findElemList (tag : String) : List VNode → Option VNode
  | [] => none
  | v :: vs =>
    match findElem tag v with
    | some r => some r
    | none => findElemList tag vs

end

/-- The value of an attribute of an element node. -/
def attrOf (name : String) : VNode → Option String
  | .text _ => none
  | .elem _ attrs _ => attrs.lookup name

/-- The child list of an element node. -/
def childrenOf : VNode → List VNode
  | .text _ => []
  | .elem _ _ c => c

/-- The text of a node whose content is a single text node. -/
def soleText : VNode → Option String
  | .text s => some s
  | .elem _ _ [.text s] => some s
  | .elem _ _ _ => none

/-- The href of the first anchor in a fragment. -/
def anchorHref (frag : List VNode) : Option String :=
  (findElemList "a" frag).bind (attrOf "href")

/-- The text of the first anchor in a fragment. -/
def anchorText (frag : List VNode) : Option String :=
  (findElemList "a" frag).bind soleText

/-- A sample framework instance, used to evaluate the components at
concrete inputs. -/
def sampleFw : Framework :=
  { pathToRoot := fun _ => ".",
    i18n := fun _ => { propertyDefaultsTitle := "Untitled", footerCreatedWith := "Created with Quartz" } }

/-- A sample props record. -/
def sampleProps : QuartzComponentProps :=
  { fileData := { slug := some "index" },
    cfg := { pageTitle := some "meowbark.dev", locale := "en-US" },
    displayClass := none,
    children := [] }

/-! ### Claim theorems -/

/-- Claim C1, counterexample: with identical props and options, two Footer
invocations whose ambient clock years differ (2024 versus 2025) produce
different markup, so the Footer render does not depend on its arguments
alone. -/
theorem claim_C1_counterexample :
    (FooterConstructor none).render sampleFw 2024 sampleProps
      ≠ (FooterConstructor none).render sampleFw 2025 sampleProps := by
  simp [FooterConstructor, renderFooter, giscusScript, sampleFw, sampleProps]
  decide

/-- Claim C1, amended: PageTitle and Body are stateless and deterministic,
their markup depending only on their arguments; Footer additionally reads
the current clock year, and two Footer invocations with fixed props and
options produce identical markup exactly when the rendered clock years
coincide. -/
theorem claim_C1 (fw : Framework) (o : Option FooterOptions) (y1 y2 : Nat)
    (p : QuartzComponentProps) :
    PageTitleConstructor.render fw y1 p = PageTitleConstructor.render fw y2 p
      ∧ BodyConstructor.render fw y1 p = BodyConstructor.render fw y2 p
      ∧ ((FooterConstructor o).render fw y1 p = (FooterConstructor o).render fw y2 p
          ↔ toString y1 = toString y2) := by
  refine ⟨rfl, rfl, ?_⟩
  constructor
  · intro h
    simp [FooterConstructor, renderFooter, giscusScript] at h
    exact h
  · intro h
    simp [FooterConstructor, renderFooter, giscusScript, h]

/-- Claim C2: no component render of this repository can fail. For every
props record, including one without a slug and one whose configuration
lacks a pageTitle, the Footer, PageTitle and Body renders are total and
return the expected markup shape. -/
theorem claim_C2 (fw : Framework) (o : Option FooterOptions) (y : Nat)
    (p : QuartzComponentProps) :
    (∃ fattrs fkids, (FooterConstructor o).render fw y p
        = [giscusScript "preferred_color_scheme", .elem "footer" fattrs fkids])
      ∧ (∃ tattrs tkids, PageTitleConstructor.render fw y p = [.elem "h2" tattrs tkids])
      ∧ BodyConstructor.render fw y p
          = [.elem "div" [("id", "quartz-body")] p.children, giscusScript "dark_tritanopia"] := by
  refine ⟨⟨_, _, rfl⟩, ⟨_, _, rfl⟩, rfl⟩

/-- Claim C3: the anchor PageTitle renders has text cfg.pageTitle when that
is defined and the default translation string otherwise, and its href is
pathToRoot of the slug of the file data. -/
theorem claim_C3 (fw : Framework) (y : Nat) (p : QuartzComponentProps) :
    findElemList "a" (PageTitleConstructor.render fw y p)
      = some (.elem "a" (("href", fw.pathToRoot p.fileData.slug) :: optAttr "class" p.displayClass)
          [ .text (match p.cfg.pageTitle with
                   | some t => t
                   | none => (fw.i18n p.cfg.locale).propertyDefaultsTitle) ]) := by
  simp [PageTitleConstructor, renderPageTitle, findElemList, findElem, blobContainer]

/-- Claim C4: the configuration file activates exactly the listed
transformer, filter and emitter plugins, in the listed order. -/
theorem claim_C4 :
    quartzConfig.plugins.transformerCalls.map Prod.fst
        = [ "FrontMatter", "CreatedModifiedDate", "SyntaxHighlighting",
            "ObsidianFlavoredMarkdown", "GitHubFlavoredMarkdown", "TableOfContents",
            "CrawlLinks", "Description", "Latex" ]
      ∧ quartzConfig.plugins.filterCalls.map Prod.fst = ["RemoveDrafts"]
      ∧ quartzConfig.plugins.emitterCalls.map Prod.fst
        = [ "AliasRedirects", "ComponentResources", "ContentPage", "FolderPage",
            "TagPage", "ContentIndex", "Assets", "Static", "NotFoundPage" ] :=
  ⟨rfl, rfl, rfl⟩

/-- Claim C5: when the Footer constructor receives an options record, the
list element of the rendered footer holds exactly one list item per entry
of the links map, in enumeration order, each an anchor whose href is the
entry value and whose text is the entry key, and nothing else. -/
theorem claim_C5 (fw : Framework) (y : Nat) (p : QuartzComponentProps)
    (L : List (String × String)) :
    findElemList "ul" ((FooterConstructor (some ⟨L⟩)).render fw y p)
      = some (.elem "ul" []
          (L.map fun e => .elem "li" [] [ .elem "a" [("href", e.2)] [ .text e.1 ] ])) := by
  simp [FooterConstructor, renderFooter, giscusScript, findElemList, findElem]

/-- Claim C6: every component constructor of this repository attaches a
non-empty css string to the component it returns, and the Body constructor
additionally attaches an afterDOMLoaded script. -/
theorem claim_C6 (o : Option FooterOptions) :
    (∃ s, (FooterConstructor o).css = some s ∧ s ≠ "")
      ∧ (∃ s, BodyConstructor.css = some s ∧ s ≠ "")
      ∧ (∃ s, PageTitleConstructor.css = some s ∧ s ≠ "")
      ∧ (∃ j, BodyConstructor.afterDOMLoaded = some j ∧ j ≠ "") :=
  ⟨⟨footerStyle, rfl, by decide⟩, ⟨clipboardStyle, rfl, by decide⟩,
    ⟨pageTitleCss, rfl, by decide⟩, ⟨clipboardScript, rfl, by decide⟩⟩

/-- Claim C7: the configuration is closed constant data with the stated
page title, locale, base url and ignore patterns, and its two color
schemes define all nine color tokens. -/
theorem claim_C7 :
    quartzConfig.configurationBlock = globalConfiguration
      ∧ globalConfiguration.pageTitle = "meowbark.dev"
      ∧ globalConfiguration.locale = "en-US"
      ∧ globalConfiguration.baseUrl = "www.meowbark.dev"
      ∧ globalConfiguration.ignorePatterns = ["private", "templates", ".obsidian"]
      ∧ globalConfiguration.theme.lightMode
        = { light := "#F3FCF0", lightgray := "#e5e5e5", gray := "#F5F8DE",
            darkgray := "#4e4e4e", dark := "#2b2b2b", secondary := "#a478f1",
            tertiary := "#f24389", highlight := "rgba(143, 159, 169, 0.15)",
            textHighlight := "#f4e784" }
      ∧ globalConfiguration.theme.darkMode
        = { light := "#181818", lightgray := "#393639", gray := "#646464",
            darkgray := "#d4d4d4", dark := "#ebebec", secondary := "#bb77ed",
            tertiary := "#1cdce8", highlight := "rgba(143, 159, 169, 0.15)",
            textHighlight := "#f34a62" } :=
  ⟨rfl, rfl, rfl, rfl, rfl, rfl, rfl⟩

/-- Claim C8: the Footer constructor called without options yields a
component whose rendered footer has an empty link list, the links default
being the empty collection, and rendering still completes normally. -/
theorem claim_C8 (fw : Framework) (y : Nat) (p : QuartzComponentProps) :
    findElemList "ul" ((FooterConstructor none).render fw y p) = some (.elem "ul" [] [])
      ∧ ∃ fattrs fkids, (FooterConstructor none).render fw y p
          = [giscusScript "preferred_color_scheme", .elem "footer" fattrs fkids] := by
  refine ⟨?_, _, _, rfl⟩
  simp [FooterConstructor, renderFooter, giscusScript, findElemList, findElem]

/-- Claim C9: the two PageTitle versions agree on observable content: for
every props both render an anchor, with the same href, pathToRoot of the
slug, and the same text, cfg.pageTitle or the default translation
string. -/
theorem claim_C9 (fw : Framework) (y : Nat) (p : QuartzComponentProps) :
    anchorHref (PageTitleConstructor.render fw y p) = some (fw.pathToRoot p.fileData.slug)
      ∧ anchorHref (PageTitleAltConstructor.render fw y p) = some (fw.pathToRoot p.fileData.slug)
      ∧ anchorText (PageTitleConstructor.render fw y p)
          = some (match p.cfg.pageTitle with
                  | some t => t
                  | none => (fw.i18n p.cfg.locale).propertyDefaultsTitle)
      ∧ anchorText (PageTitleConstructor.render fw y p)
          = anchorText (PageTitleAltConstructor.render fw y p) := by
  refine ⟨?_, ?_, ?_, ?_⟩ <;>
    simp [PageTitleConstructor, PageTitleAltConstructor, renderPageTitle, renderPageTitleAlt,
      anchorHref, anchorText, findElemList, findElem, blobContainer, attrOf, soleText, optAttr]

/-- Claim C10: Footer and Body each embed the giscus client script as a
fixed element, identical across any two inputs, with the stated src,
data-repo and data-mapping attributes; no input can change or remove
it. -/
theorem claim_C10 (fw fw2 : Framework) (o o2 : Option FooterOptions) (y y2 : Nat)
    (p p2 : QuartzComponentProps) (th : String) :
    giscusScript "preferred_color_scheme" ∈ (FooterConstructor o).render fw y p
      ∧ giscusScript "preferred_color_scheme" ∈ (FooterConstructor o2).render fw2 y2 p2
      ∧ giscusScript "dark_tritanopia" ∈ BodyConstructor.render fw y p
      ∧ giscusScript "dark_tritanopia" ∈ BodyConstructor.render fw2 y2 p2
      ∧ attrOf "src" (giscusScript th) = some "https://giscus.app/client.js"
      ∧ attrOf "data-repo" (giscusScript th) = some "thanhtschoepe/obsidian-publish"
      ∧ attrOf "data-mapping" (giscusScript th) = some "pathname" := by
  refine ⟨?_, ?_, ?_, ?_, by rfl, by rfl, by rfl⟩ <;>
    simp [FooterConstructor, BodyConstructor, renderFooter, renderBody, giscusScript, attrOf]

end ObsidianPublish
